import Mathlib

/-!
Shallow embedding of the interaction/feed core of the Reel-Nija social app
(React + supabase client). Sources:

* `src/components/PostCard.tsx` — like/save toggles (`handleLike`, `handleSave`);
* `src/pages/Home.tsx` / `src/pages/Explore.tsx` — feed fetches and
  `markAllAsRead` over the notifications table;
* the `Create` page (`handleSubmit`) — media upload then post insert;
* `supabase/migrations/...sql` — table shapes and constraints
  (`UNIQUE(user_id, post_id)` on likes/saves, `CHECK (follower_id != following_id)`
  and `UNIQUE(follower_id, following_id)` on follows).

The supabase-js client resolves every query-builder call with a
`\x7b data, error \x7d` object: database-level failures (constraint violations,
row-level-security rejections, transient Postgrest errors) come back in the
`error` field and do NOT reject the promise, while network-level failures
reject the promise and land in the surrounding `catch`. We model the outcome
of each awaited store call with `CallResult` below and thread one oracle value
per call through each embedded handler. Database-generated surrogate `id`
columns and `created_at` defaults are omitted from rows where no claim
depends on them.
-/

namespace ReelNija

abbrev UserId := String
abbrev PostId := String

/-- Outcome of one awaited supabase call, as observed by the calling code:
`ok` — the call succeeded; `errReturned` — the promise resolved with a
non-null `error` field (Postgrest/constraint/RLS errors are reported this
way and do not throw); `thrown` — the promise rejected (e.g. network
failure), so control jumps to the enclosing `catch`. -/
inductive CallResult
  | ok
  | errReturned
  | thrown
deriving DecidableEq

/-- A row of `public.likes` (surrogate `id` and `created_at` omitted).
The table carries `UNIQUE(user_id, post_id)`. -/
structure LikeRow where
  user_id : UserId
  post_id : PostId
deriving DecidableEq

/-- A row of `public.saves` (surrogate `id` and `created_at` omitted).
The table carries `UNIQUE(user_id, post_id)`. -/
structure SaveRow where
  user_id : UserId
  post_id : PostId
deriving DecidableEq

/-- A row of `public.follows` (surrogate `id` and `created_at` omitted).
The table carries `UNIQUE(follower_id, following_id)` and
`CHECK (follower_id != following_id)`. -/
structure FollowRow where
  follower_id : UserId
  following_id : UserId
deriving DecidableEq

/-- A row of `public.notifications` (surrogate `id`, `comment_id` and
`created_at` omitted; `is_read` defaults to `false` on insert). -/
structure NotificationRow where
  user_id : UserId
  actor_id : UserId
  type : String
  post_id : Option PostId
  is_read : Bool
deriving DecidableEq

/-- A row of `public.posts`. `created_at` (a timestamptz) is modelled as an
integer timestamp, `id` as a string; both are produced by the store on
insert and are passed explicitly to the embedded insert. -/
structure PostRow where
  id : String
  user_id : UserId
  media_url : String
  media_type : String
  caption : Option String
  location : Option String
  created_at : Int
deriving DecidableEq

/-- The relational store plus the "posts" storage bucket (object paths). -/
structure DB where
  posts : List PostRow
  likes : List LikeRow
  saves : List SaveRow
  follows : List FollowRow
  nfs : List NotificationRow
  storageObjects : List String
deriving DecidableEq

def emptyDB : DB :=
  { posts := [], likes := [], saves := [], follows := [], nfs := [],
    storageObjects := [] }

/-- Whether a like row for `(actor, post)` exists in the store. -/
def hasLike (db : DB) (a : UserId) (p : PostId) : Bool :=
  db.likes.any (fun l => l.user_id == a && l.post_id == p)

/-- Whether a save row for `(actor, post)` exists in the store. -/
def hasSave (db : DB) (a : UserId) (p : PostId) : Bool :=
  db.saves.any (fun s => s.user_id == a && s.post_id == p)

/-- Number of like rows for a post — the derived like count of §4.2
(the value `post.likes.length` delivered by the nested select). -/
def countLikes (db : DB) (p : PostId) : Nat :=
  (db.likes.filter (fun l => l.post_id == p)).length

/-- Effective result of `supabase.from("likes").insert(...)`: the
`UNIQUE(user_id, post_id)` constraint turns an otherwise-successful insert
of an already-present pair into a returned error (duplicate key), which
supabase-js reports in the `error` field without throwing. -/
def likeInsertResult (db : DB) (a : UserId) (p : PostId) (r : CallResult) :
    CallResult :=
  if hasLike db a p ∧ r = CallResult.ok then CallResult.errReturned else r

/-- Effective result of `supabase.from("saves").insert(...)`, analogous to
`likeInsertResult`. -/
def saveInsertResult (db : DB) (a : UserId) (p : PostId) (r : CallResult) :
    CallResult :=
  if hasSave db a p ∧ r = CallResult.ok then CallResult.errReturned else r

/-- The component state of `PostCard` relevant to the like toggle:
`isLiked`/`likesCount` react state (`likesCount` starts from
`post.likes.length`). Modelled with an integer count, as in JS. -/
structure CardState where
  isLiked : Bool
  likesCount : Int
deriving DecidableEq

/-- `handleLike` from `src/components/PostCard.tsx` lines 69–103, for actor
`a` (the authenticated user), post `p` owned by `owner` (`post.user_id`).
`r1` is the oracle outcome for the likes delete/insert call, `r2` for the
notifications insert call. Branch by branch:

* if `isLiked`: await the likes delete; a rejected promise jumps to `catch`
  (no state change); otherwise — the returned `error`, if any, is never
  inspected — `setLikesCount(likesCount - 1)` and `setIsLiked(!isLiked)` run;
* else: await the likes insert (subject to the uniqueness coercion of
  `likeInsertResult`); a rejected promise jumps to `catch`; otherwise
  `setLikesCount(likesCount + 1)` runs, then, when `post.user_id !== user.id`,
  the notifications insert is awaited (a rejected promise jumps to `catch`,
  skipping the trailing `setIsLiked`); finally `setIsLiked(!isLiked)`. -/
def handleLike (a : UserId) (p : PostId) (owner : UserId)
    (r1 r2 : CallResult) (c : CardState) (db : DB) : CardState × DB :=
  if c.isLiked then
    if r1 = CallResult.thrown then (c, db)
    else
      let db1 :=
        if r1 = CallResult.ok then
          { db with likes :=
              db.likes.filter (fun l => !(l.user_id == a && l.post_id == p)) }
        else db
      ({ isLiked := !c.isLiked, likesCount := c.likesCount - 1 }, db1)
  else
    let r1e := likeInsertResult db a p r1
    if r1e = CallResult.thrown then (c, db)
    else
      let db1 :=
        if r1e = CallResult.ok then
          { db with likes := db.likes ++ [{ user_id := a, post_id := p }] }
        else db
      if owner ≠ a then
        if r2 = CallResult.thrown then
          ({ c with likesCount := c.likesCount + 1 }, db1)
        else
          let db2 :=
            if r2 = CallResult.ok then
              { db1 with nfs := db1.nfs ++
                  [{ user_id := owner, actor_id := a, type := "like",
                     post_id := some p, is_read := false }] }
            else db1
          ({ isLiked := !c.isLiked, likesCount := c.likesCount + 1 }, db2)
      else
        ({ isLiked := !c.isLiked, likesCount := c.likesCount + 1 }, db1)

/-- `handleSave` from `src/components/PostCard.tsx` lines 105–128, for actor
`a` and post `p`; `saved` is the `isSaved` react state and `r1` the oracle
outcome for the saves delete/insert call. The returned `error` field is
never inspected; only a rejected promise reaches `catch`. -/
def handleSave (a : UserId) (p : PostId) (r1 : CallResult)
    (saved : Bool) (db : DB) : Bool × DB :=
  if saved then
    if r1 = CallResult.thrown then (saved, db)
    else
      let db1 :=
        if r1 = CallResult.ok then
          { db with saves :=
              db.saves.filter (fun s => !(s.user_id == a && s.post_id == p)) }
        else db
      (!saved, db1)
  else
    let r1e := saveInsertResult db a p r1
    if r1e = CallResult.thrown then (saved, db)
    else
      let db1 :=
        if r1e = CallResult.ok then
          { db with saves := db.saves ++ [{ user_id := a, post_id := p }] }
        else db
      (!saved, db1)

/-! ### Feed fetches (`Home.fetchPosts`, `Explore.fetchExplorePosts`)

Both pages issue `select ... .order("created_at", \x7b ascending: false \x7d)
.limit(n)` — a single ordering key and no secondary key, so the store sorts
by `created_at` descending and rows with equal timestamps keep their stored
relative order. We model that as a stable insertion sort on the one
requested key followed by `take n`. -/

/-- Stable descending insertion on the single key `created_at`: a new row
is placed before the first strictly-smaller timestamp, hence after any row
with an equal timestamp. -/
def insertByCreatedAtDesc (x : PostRow) : List PostRow → List PostRow
  | [] => [x]
  | y :: ys =>
    if y.created_at < x.created_at then x :: y :: ys
    else y :: insertByCreatedAtDesc x ys

/-- The row ordering produced by `.order("created_at", ascending: false)`. -/
def orderByCreatedAtDesc (rows : List PostRow) : List PostRow :=
  rows.foldl (fun acc x => insertByCreatedAtDesc x acc) []

/-- `fetchPosts` from `src/pages/Home.tsx` lines 32–55: all posts ordered by
`created_at` descending, limited to 20. -/
def fetchPosts (db : DB) : List PostRow :=
  (orderByCreatedAtDesc db.posts).take 20

/-- `fetchExplorePosts` from `src/pages/Explore.tsx` lines 23–45: all posts
ordered by `created_at` descending, limited to 50. -/
def fetchExplorePosts (db : DB) : List PostRow :=
  (orderByCreatedAtDesc db.posts).take 50

/-! ### `markAllAsRead` (notifications page, `src/pages/Explore.tsx` file,
lines 165–180) -/

/-- The update filter `eq("user_id", user.id).eq("is_read", false)`. -/
def unreadFor (u : UserId) (n : NotificationRow) : Bool :=
  n.user_id == u && !n.is_read

/-- Per-row effect of `update(\x7b is_read: true \x7d)` under that filter. -/
def markReadFn (u : UserId) (n : NotificationRow) : NotificationRow :=
  if unreadFor u n then { n with is_read := true } else n

/-- `markAllAsRead` for the authenticated user `u`: one batch update setting
`is_read := true` on every row matching `user_id = u ∧ is_read = false`.
The second component is the number of rows the update matched. -/
def markAllAsRead (u : UserId) (db : DB) : DB × Nat :=
  ({ db with nfs := db.nfs.map (markReadFn u) },
   (db.nfs.filter (unreadFor u)).length)

/-! ### The follows table constraint layer
(`supabase/migrations/...sql` lines 57–65). No page in the source issues
follow writes; the table's own constraints decide claim C8, so the insert
is modelled directly from the SQL: `CHECK (follower_id != following_id)`
rejects a self follow, `UNIQUE(follower_id, following_id)` rejects a
duplicate edge, and a delete removes the matching rows. -/

inductive FollowError
  | invalidSelfReference
  | alreadyExists
deriving DecidableEq

/-- Insert into `public.follows`, as constrained by the migration. -/
def insertFollow (s : List FollowRow) (follower followee : UserId) :
    Except FollowError (List FollowRow) :=
  if follower = followee then Except.error FollowError.invalidSelfReference
  else if s.any (fun r => r.follower_id == follower && r.following_id == followee) then
    Except.error FollowError.alreadyExists
  else Except.ok (s ++ [{ follower_id := follower, following_id := followee }])

/-- Delete from `public.follows` the rows of one ordered pair. -/
def deleteFollow (s : List FollowRow) (follower followee : UserId) :
    List FollowRow :=
  s.filter (fun r => !(r.follower_id == follower && r.following_id == followee))

/-- The follows-table states reachable from empty through the store's own
insert/delete operations. -/
inductive FollowsReachable : List FollowRow → Prop
  | empty : FollowsReachable []
  | insert {s s' : List FollowRow} {a b : UserId} :
      FollowsReachable s → insertFollow s a b = Except.ok s' →
      FollowsReachable s'
  | delete {s : List FollowRow} (a b : UserId) :
      FollowsReachable s → FollowsReachable (deleteFollow s a b)

/-! ### Post authoring (`Create.handleSubmit`, lines 46–97 of the page) -/

/-- The storage object path built by `handleSubmit`:
`` `$\x7buser.id\x7d/$\x7bDate.now()\x7d.$\x7bfileExt\x7d` `` — `now` is
`Date.now()` rendered as a string. -/
def uploadedPath (userId now fileExt : String) : String :=
  userId ++ "/" ++ now ++ "." ++ fileExt

/-- The durable public URL `getPublicUrl` returns for an object of the
public "posts" bucket. -/
def storagePublicUrl (fileName : String) : String :=
  "/storage/v1/object/public/posts/" ++ fileName

/-- Outcome of one `handleSubmit` run as the caller sees it. -/
inductive SubmitResult
  | failed
  | success
deriving DecidableEq

/-- `handleSubmit` from the `Create` page, lines 46–97, with a file already
selected. `uploadRes` is the oracle outcome of the storage upload and
`insertRes` of the posts insert; `newId`/`createdAt` are the store-generated
column values of the inserted row. Unlike `PostCard.handleLike`, this
handler checks both returned errors: `if (uploadError) throw uploadError`
aborts before any post insert, and `if (insertError) throw insertError`
aborts after the blob was written (the orphaned blob stays). No caption or
location validation is performed; `caption.trim() || null` and
`location.trim() || null` are stored as given. -/
def handleSubmit (userId fileExt : String) (isVideo : Bool)
    (caption location : String) (now newId : String) (createdAt : Int)
    (uploadRes insertRes : CallResult) (db : DB) : DB × SubmitResult :=
  let fileName := uploadedPath userId now fileExt
  match uploadRes with
  | CallResult.errReturned => (db, SubmitResult.failed)
  | CallResult.thrown => (db, SubmitResult.failed)
  | CallResult.ok =>
    let db1 := { db with storageObjects := db.storageObjects ++ [fileName] }
    let mediaUrl := storagePublicUrl fileName
    let mediaType := if isVideo then "video" else "image"
    match insertRes with
    | CallResult.errReturned => (db1, SubmitResult.failed)
    | CallResult.thrown => (db1, SubmitResult.failed)
    | CallResult.ok =>
      let row : PostRow :=
        { id := newId, user_id := userId, media_url := mediaUrl,
          media_type := mediaType,
          caption := if caption.trim = "" then none else some caption.trim,
          location := if location.trim = "" then none else some location.trim,
          created_at := createdAt }
      ({ db1 with posts := db1.posts ++ [row] }, SubmitResult.success)

/-- One successful like toggle: `handleLike` where both awaited store calls
succeed (the setting of spec §8's toggle-parity property). -/
def toggleLikeOk (a : UserId) (p : PostId) (owner : UserId)
    (s : CardState × DB) : CardState × DB :=
  handleLike a p owner CallResult.ok CallResult.ok s.1 s.2

/-! ## Theorems -/

/-- The notifications table after `handleLike` is either unchanged or, only
when the post owner differs from the actor, extended by the single like
notification row. -/
lemma handleLike_nfs_cases (a p owner : String) (r1 r2 : CallResult)
    (c : CardState) (db : DB) :
    (handleLike a p owner r1 r2 c db).2.nfs = db.nfs ∨
    (owner ≠ a ∧ (handleLike a p owner r1 r2 c db).2.nfs = db.nfs ++
      [{ user_id := owner, actor_id := a, type := "like", post_id := some p,
         is_read := false }]) := by
  simp only [handleLike]
  split_ifs <;> simp_all

/-- C3: `handleLike` never creates a notification whose recipient equals the
actor: a self-like leaves the notifications table unchanged, and every row
present afterwards is either an old row or has `user_id ≠ actor_id`. -/
theorem like_notification_never_self (a p owner : String)
    (r1 r2 : CallResult) (c : CardState) (db : DB) :
    (owner = a → (handleLike a p owner r1 r2 c db).2.nfs = db.nfs) ∧
    (∀ n ∈ (handleLike a p owner r1 r2 c db).2.nfs,
      n ∈ db.nfs ∨ n.user_id ≠ n.actor_id) := by
  obtain h | ⟨hne, h⟩ := handleLike_nfs_cases a p owner r1 r2 c db
  · exact ⟨fun _ => h, fun n hn => Or.inl (h ▸ hn)⟩
  · refine ⟨fun he => (hne he).elim, fun n hn => ?_⟩
    rw [h] at hn
    rcases List.mem_append.mp hn with hn | hn
    · exact Or.inl hn
    · right
      rw [List.mem_singleton.mp hn]
      exact hne

/-- Witness for C3: a concrete self-like performs zero notification
inserts. -/
theorem like_notification_never_self_witness :
    (handleLike "u3" "p3" "u3" CallResult.ok CallResult.ok
      ⟨false, 0⟩ emptyDB).2.nfs = emptyDB.nfs :=
  (like_notification_never_self "u3" "p3" "u3" CallResult.ok CallResult.ok
    ⟨false, 0⟩ emptyDB).1 rfl

/-- C2 (code bug): when the likes insert resolves with a returned error
(duplicate key, RLS rejection or transient Postgrest failure), `handleLike`
still increments the displayed count — the error field of the resolved
promise is never inspected, so the `catch` does not fire. Starting from an
empty store, the caller is shown a count of 1 while the store holds 0
matching like rows. -/
theorem like_count_diverges_cex :
    (handleLike "u1" "p1" "u1" CallResult.errReturned CallResult.ok
      ⟨false, 0⟩ emptyDB).1.likesCount = 1 ∧
    countLikes (handleLike "u1" "p1" "u1" CallResult.errReturned CallResult.ok
      ⟨false, 0⟩ emptyDB).2 "p1" = 0 := by
  decide

/-- C4 (code bug): a likes insert that resolves with a returned error does
not stop the fan-out — `handleLike` proceeds to insert the notification even
though no like row was created. -/
theorem nf_despite_failed_like_insert_cex :
    (handleLike "u1" "p1" "u2" CallResult.errReturned CallResult.ok
      ⟨false, 0⟩ emptyDB).2.likes = [] ∧
    (handleLike "u1" "p1" "u2" CallResult.errReturned CallResult.ok
      ⟨false, 0⟩ emptyDB).2.nfs =
      [{ user_id := "u2", actor_id := "u1", type := "like",
         post_id := some "p1", is_read := false }] := by
  decide

/-- C10: `handleSave` is frame-disjoint from likes and notifications — it
never touches the notifications table, never changes the like rows (hence no
derived like count), and its only store effect is inserting or deleting the
single `(actor, post)` save row. -/
theorem save_frame (a p : String) (r1 : CallResult) (saved : Bool)
    (db : DB) :
    (handleSave a p r1 saved db).2.nfs = db.nfs ∧
    (handleSave a p r1 saved db).2.likes = db.likes ∧
    (∀ q, countLikes (handleSave a p r1 saved db).2 q = countLikes db q) ∧
    ((handleSave a p r1 saved db).2.saves = db.saves ∨
     (handleSave a p r1 saved db).2.saves =
       db.saves ++ [{ user_id := a, post_id := p }] ∨
     (handleSave a p r1 saved db).2.saves =
       db.saves.filter (fun s => !(s.user_id == a && s.post_id == p))) := by
  simp only [handleSave]
  split_ifs <;> simp_all [countLikes]

/-- After one pass of `markReadFn u`, every row of the recipient `u` is
read. -/
lemma markReadFn_all_read (u : UserId) (l : List NotificationRow) :
    ∀ n ∈ l.map (markReadFn u), n.user_id = u → n.is_read = true := by
  intro n hn hu
  obtain ⟨m, hm, rfl⟩ := List.mem_map.mp hn
  unfold markReadFn unreadFor at hu ⊢
  by_cases h : (m.user_id == u && !m.is_read) = true
  · simp [h]
  · simp only [h, if_neg, Bool.false_eq_true, not_false_eq_true, if_false] at hu ⊢
    simp only [hu, beq_self_eq_true, Bool.true_and, Bool.not_eq_true',
      Bool.not_eq_false] at h ⊢
    exact h

/-- A second application of `markReadFn u` to any row changes nothing. -/
lemma markReadFn_fix (u : UserId) (m : NotificationRow) :
    markReadFn u (markReadFn u m) = markReadFn u m := by
  unfold markReadFn unreadFor
  by_cases h : (m.user_id == u && !m.is_read) = true
  · simp [h]
  · simp [h]

/-- After one pass of `markReadFn u`, the update filter matches no row. -/
lemma markReadFn_filter_nil (u : UserId) (l : List NotificationRow) :
    (l.map (markReadFn u)).filter (unreadFor u) = [] := by
  rw [List.filter_eq_nil_iff]
  intro n hn
  have := markReadFn_all_read u l n hn
  unfold unreadFor
  by_cases hu : n.user_id = u
  · simp [this hu, hu]
  · simp [hu]

/-- C9: `markAllAsRead` is idempotent per recipient — the first call sets
`is_read = true` on all of the recipient's unread notifications, and an
immediate second call matches zero rows and changes nothing. -/
theorem markAllAsRead_idem (u : UserId) (db : DB) :
    (∀ n ∈ (markAllAsRead u db).1.nfs, n.user_id = u → n.is_read = true) ∧
    (markAllAsRead u (markAllAsRead u db).1).1 = (markAllAsRead u db).1 ∧
    (markAllAsRead u (markAllAsRead u db).1).2 = 0 := by
  refine ⟨markReadFn_all_read u db.nfs, ?_, ?_⟩
  · simp only [markAllAsRead]
    simp
    intro m _
    exact markReadFn_fix u m
  · simp [markAllAsRead, markReadFn_filter_nil]

/-- Witness for C9 on a store holding one unread and one foreign
notification. -/
theorem markAllAsRead_idem_witness :
    (markAllAsRead "u4"
      (markAllAsRead "u4"
        { emptyDB with nfs :=
            [{ user_id := "u4", actor_id := "u5", type := "like",
               post_id := some "p4", is_read := false },
             { user_id := "u5", actor_id := "u4", type := "follow",
               post_id := none, is_read := false }] }).1).2 = 0 :=
  (markAllAsRead_idem "u4"
    { emptyDB with nfs :=
        [{ user_id := "u4", actor_id := "u5", type := "like",
           post_id := some "p4", is_read := false },
         { user_id := "u5", actor_id := "u4", type := "follow",
           post_id := none, is_read := false }] }).2.2

/-- C8: a self follow always fails with the self-reference check violation,
and every follows-table state reachable through the store's insert/delete
operations contains no row with `follower_id = following_id`. -/
theorem follow_no_self :
    (∀ (a : UserId) (s : List FollowRow),
      insertFollow s a a = Except.error FollowError.invalidSelfReference) ∧
    (∀ s : List FollowRow, FollowsReachable s →
      ∀ r ∈ s, r.follower_id ≠ r.following_id) := by
  constructor
  · intro a s
    simp [insertFollow]
  · intro s hs
    induction hs with
    | empty => intro r hr; cases hr
    | insert hprev hins ih =>
      intro r hr
      rename_i sprev scur a b
      unfold insertFollow at hins
      by_cases hab : a = b
      · simp [hab] at hins
      · simp only [hab, if_false, if_neg] at hins
        by_cases hdup :
            (sprev.any fun q => q.follower_id == a && q.following_id == b) = true
        · simp [hdup] at hins
        · simp only [hdup, Bool.false_eq_true, not_false_eq_true, if_neg,
            if_false, Except.ok.injEq] at hins
          rw [← hins] at hr
          rcases List.mem_append.mp hr with hr | hr
          · exact ih r hr
          · rw [List.mem_singleton.mp hr]
            exact hab
    | delete a b hprev ih =>
      intro r hr
      exact ih r (List.mem_of_mem_filter hr)

/-- Witness for C8: the concrete self insert is rejected, and a row created
by a successful insert of a non-self edge satisfies the invariant. -/
theorem follow_no_self_witness :
    insertFollow [] "u6" "u6" =
      Except.error FollowError.invalidSelfReference ∧
    ({ follower_id := "u6", following_id := "u7" } : FollowRow).follower_id ≠
      ({ follower_id := "u6", following_id := "u7" } : FollowRow).following_id :=
  ⟨follow_no_self.1 "u6" [],
   follow_no_self.2 [{ follower_id := "u6", following_id := "u7" }]
     (FollowsReachable.insert FollowsReachable.empty
       (by simp [insertFollow] :
         insertFollow [] "u6" "u7" =
           Except.ok [{ follower_id := "u6", following_id := "u7" }]))
     { follower_id := "u6", following_id := "u7" } (List.mem_singleton.mpr rfl)⟩

/-- C7: in `handleSubmit` the blob upload completes before the post row is
inserted — a failed upload leaves the posts table unchanged and the
operation visibly failed, and any newly inserted post row references the
durable public URL of the object written to the storage bucket during the
same run. -/
theorem create_blob_before_post (userId fileExt : String) (isVideo : Bool)
    (caption location now newId : String) (createdAt : Int)
    (uploadRes insertRes : CallResult) (db : DB) :
    (uploadRes ≠ CallResult.ok →
      (handleSubmit userId fileExt isVideo caption location now newId
        createdAt uploadRes insertRes db).1.posts = db.posts ∧
      (handleSubmit userId fileExt isVideo caption location now newId
        createdAt uploadRes insertRes db).2 = SubmitResult.failed) ∧
    (∀ row ∈ (handleSubmit userId fileExt isVideo caption location now newId
        createdAt uploadRes insertRes db).1.posts,
      row ∈ db.posts ∨
      (uploadRes = CallResult.ok ∧
       row.media_url = storagePublicUrl (uploadedPath userId now fileExt) ∧
       uploadedPath userId now fileExt ∈
         (handleSubmit userId fileExt isVideo caption location now newId
           createdAt uploadRes insertRes db).1.storageObjects)) := by
  constructor
  · intro h
    cases uploadRes with
    | ok => exact absurd rfl h
    | errReturned => exact ⟨rfl, rfl⟩
    | thrown => exact ⟨rfl, rfl⟩
  · intro row hrow
    cases uploadRes with
    | errReturned => exact Or.inl hrow
    | thrown => exact Or.inl hrow
    | ok =>
      cases insertRes with
      | errReturned => exact Or.inl hrow
      | thrown => exact Or.inl hrow
      | ok =>
        rcases List.mem_append.mp hrow with h | h
        · exact Or.inl h
        · right
          refine ⟨rfl, ?_, ?_⟩
          · rw [List.mem_singleton.mp h]
          · exact List.mem_append.mpr (Or.inr (List.mem_singleton.mpr rfl))

/-- Witness for C7: a concrete failed upload creates no post row. -/
theorem create_blob_before_post_witness :
    (handleSubmit "u8" "jpg" false "cap" "loc" "100" "n8" 7
      CallResult.errReturned CallResult.ok emptyDB).1.posts =
      emptyDB.posts :=
  ((create_blob_before_post "u8" "jpg" false "cap" "loc" "100" "n8" 7
    CallResult.errReturned CallResult.ok emptyDB).1 (by decide)).1

/-- A caption one character past the 2200 bound the spec names. -/
def longCaption : String := String.mk (List.replicate 2201 'a')

/-- C6 (counterexample): `handleSubmit` performs no caption-length
validation — with a caption of length 2201 the submit succeeds (no
`ValidationFailed`); only the form input's `maxLength` attribute mentions
2200, and neither the handler nor the `posts` table schema enforces it. -/
theorem caption_2201_accepted_cex :
    (handleSubmit "u9" "jpg" false longCaption "" "100" "n9" 7
      CallResult.ok CallResult.ok emptyDB).2 = SubmitResult.success ∧
    longCaption.length = 2201 := by
  refine ⟨rfl, ?_⟩
  show (List.replicate 2201 'a').length = 2201
  rw [List.length_replicate]

/-- C6 (amended): `handleSubmit` accepts a caption and location of any
length — every run whose two store calls succeed creates the post row,
caption length notwithstanding. -/
theorem caption_unvalidated (userId fileExt : String) (isVideo : Bool)
    (caption location now newId : String) (createdAt : Int) (db : DB) :
    (handleSubmit userId fileExt isVideo caption location now newId
      createdAt CallResult.ok CallResult.ok db).2 = SubmitResult.success ∧
    (handleSubmit userId fileExt isVideo caption location now newId
      createdAt CallResult.ok CallResult.ok db).1.posts.length =
      db.posts.length + 1 := by
  exact ⟨rfl, by simp [handleSubmit]⟩

/-- Membership in a single descending insertion. -/
lemma mem_insertByCreatedAtDesc (x : PostRow) (l : List PostRow)
    (y : PostRow) :
    y ∈ insertByCreatedAtDesc x l ↔ y = x ∨ y ∈ l := by
  induction l with
  | nil => simp [insertByCreatedAtDesc]
  | cons z zs ih =>
    unfold insertByCreatedAtDesc
    by_cases h : z.created_at < x.created_at
    · simp [h]
    · rw [if_neg h]
      simp only [List.mem_cons, ih]
      tauto

/-- A descending insertion preserves the non-strict descending order on the
`created_at` key. -/
lemma pairwise_insertByCreatedAtDesc (x : PostRow) (l : List PostRow)
    (h : l.Pairwise (fun u v => v.created_at ≤ u.created_at)) :
    (insertByCreatedAtDesc x l).Pairwise
      (fun u v => v.created_at ≤ u.created_at) := by
  induction l with
  | nil => simp [insertByCreatedAtDesc]
  | cons z zs ih =>
    rw [List.pairwise_cons] at h
    obtain ⟨hz, hzs⟩ := h
    unfold insertByCreatedAtDesc
    by_cases hlt : z.created_at < x.created_at
    · rw [if_pos hlt]
      refine List.pairwise_cons.mpr ⟨?_, List.pairwise_cons.mpr ⟨hz, hzs⟩⟩
      intro w hw
      rcases List.mem_cons.mp hw with rfl | hw
      · exact le_of_lt hlt
      · exact le_trans (hz w hw) (le_of_lt hlt)
    · rw [if_neg hlt]
      refine List.pairwise_cons.mpr ⟨?_, ih hzs⟩
      intro w hw
      rcases (mem_insertByCreatedAtDesc x zs w).mp hw with rfl | hw
      · exact le_of_not_lt hlt
      · exact hz w hw

/-- Membership through the insertion fold. -/
lemma mem_orderFold (rows : List PostRow) :
    ∀ (acc : List PostRow) (y : PostRow),
      (y ∈ rows.foldl (fun acc x => insertByCreatedAtDesc x acc) acc ↔
        y ∈ rows ∨ y ∈ acc) := by
  induction rows with
  | nil => intro acc y; simp
  | cons z zs ih =>
    intro acc y
    rw [List.foldl_cons, ih, mem_insertByCreatedAtDesc]
    simp only [List.mem_cons]
    tauto

/-- Order through the insertion fold. -/
lemma pairwise_orderFold (rows : List PostRow) :
    ∀ acc : List PostRow,
      acc.Pairwise (fun u v => v.created_at ≤ u.created_at) →
      (rows.foldl (fun acc x => insertByCreatedAtDesc x acc) acc).Pairwise
        (fun u v => v.created_at ≤ u.created_at) := by
  induction rows with
  | nil => intro acc h; exact h
  | cons z zs ih =>
    intro acc h
    exact ih _ (pairwise_insertByCreatedAtDesc z acc h)

/-- C5 (amended): both feeds are ordered non-strictly descending by
`created_at`, bounded by their limits, and drawn from the stored posts; no
identifier tie-break is part of the query. -/
theorem feeds_sorted_by_created_at (db : DB) :
    (fetchPosts db).Pairwise (fun x y => y.created_at ≤ x.created_at) ∧
    (fetchPosts db).length ≤ 20 ∧
    (∀ x ∈ fetchPosts db, x ∈ db.posts) ∧
    (fetchExplorePosts db).Pairwise (fun x y => y.created_at ≤ x.created_at) ∧
    (fetchExplorePosts db).length ≤ 50 ∧
    (∀ x ∈ fetchExplorePosts db, x ∈ db.posts) := by
  have hp := pairwise_orderFold db.posts [] List.Pairwise.nil
  have hm : ∀ y ∈ orderByCreatedAtDesc db.posts, y ∈ db.posts := by
    intro y hy
    have := (mem_orderFold db.posts [] y).mp hy
    simpa using this
  refine ⟨hp.sublist (List.take_sublist 20 _), List.length_take_le 20 _,
    ?_, hp.sublist (List.take_sublist 50 _), List.length_take_le 50 _, ?_⟩
  · intro x hx
    exact hm x (List.take_subset 20 _ hx)
  · intro x hx
    exact hm x (List.take_subset 50 _ hx)

/-- Witness for C5's amended ordering on a concrete two-post store. -/
theorem feeds_sorted_by_created_at_witness :
    (fetchPosts { emptyDB with posts :=
      [{ id := "a", user_id := "u", media_url := "m", media_type := "image",
         caption := none, location := none, created_at := 1 },
       { id := "b", user_id := "u", media_url := "m", media_type := "image",
         caption := none, location := none, created_at := 2 }] }).length ≤ 20 :=
  (feeds_sorted_by_created_at { emptyDB with posts :=
      [{ id := "a", user_id := "u", media_url := "m", media_type := "image",
         caption := none, location := none, created_at := 1 },
       { id := "b", user_id := "u", media_url := "m", media_type := "image",
         caption := none, location := none, created_at := 2 }] }).2.1

/-- First post of the tie-break counterexample: smaller identifier. -/
def tiePostA : PostRow :=
  { id := "1", user_id := "u", media_url := "m1", media_type := "image",
    caption := none, location := none, created_at := 5 }

/-- Second post of the tie-break counterexample: same timestamp, larger
identifier. -/
def tiePostB : PostRow :=
  { id := "2", user_id := "u", media_url := "m2", media_type := "image",
    caption := none, location := none, created_at := 5 }

/-- A store holding two posts with equal creation timestamps. -/
def dbTie : DB := { emptyDB with posts := [tiePostA, tiePostB] }

/-- Modelled from the spec's words for comparison (not from the source): a
sequence strictly ordered by creation timestamp descending with ties broken
by identifier descending. -/
def specTimestampIdDesc (l : List PostRow) : Prop :=
  l.Pairwise (fun x y =>
    y.created_at < x.created_at ∨
    (y.created_at = x.created_at ∧ y.id < x.id))

/-- C5 (counterexample): the home feed of `dbTie` returns the two
equal-timestamp posts in stored order — identifier ascending — because the
query orders by `created_at` alone, so the claimed (timestamp, id)
descending total order fails. -/
theorem feed_tie_order_cex :
    fetchPosts dbTie = [tiePostA, tiePostB] ∧
    ¬ specTimestampIdDesc (fetchPosts dbTie) := by
  have h : fetchPosts dbTie = [tiePostA, tiePostB] := by decide
  refine ⟨h, ?_⟩
  rw [h]
  intro hp
  have hrel := (List.pairwise_cons.mp hp).1 tiePostB (List.mem_singleton.mpr rfl)
  rcases hrel with hlt | ⟨heq, hid⟩
  · simp [tiePostA, tiePostB] at hlt
  · have hid2 : ("2" : String) < "1" := hid
    rw [String.lt_iff_toList_lt] at hid2
    exact absurd hid2 (by decide)

/-- A successful like toggle from a delete-pending state. -/
lemma handleLike_ok_liked (a p owner : String) (c : CardState) (db : DB)
    (hc : c.isLiked = true) :
    handleLike a p owner CallResult.ok CallResult.ok c db =
      ({ isLiked := false, likesCount := c.likesCount - 1 },
       { db with likes :=
           db.likes.filter (fun l => !(l.user_id == a && l.post_id == p)) }) := by
  simp [handleLike, hc]

/-- A successful like toggle from an insert-pending state with no stored
like row for the pair. -/
lemma handleLike_ok_unliked (a p owner : String) (c : CardState) (db : DB)
    (hc : c.isLiked = false) (hdb : hasLike db a p = false) :
    handleLike a p owner CallResult.ok CallResult.ok c db =
      ({ isLiked := true, likesCount := c.likesCount + 1 },
       if owner = a then
         { db with likes := db.likes ++ [{ user_id := a, post_id := p }] }
       else
         { db with likes := db.likes ++ [{ user_id := a, post_id := p }],
                   nfs := db.nfs ++
                     [{ user_id := owner, actor_id := a, type := "like",
                        post_id := some p, is_read := false }] }) := by
  by_cases how : owner = a <;>
    simp [handleLike, likeInsertResult, hc, hdb, how]

/-- One successful toggle from a consistent state flips the component flag
and the stored row together, and moves the count by one in the matching
direction. -/
lemma toggleLikeOk_step (a p owner : String) (s : CardState × DB)
    (h : s.1.isLiked = hasLike s.2 a p) :
    ((toggleLikeOk a p owner s).1.isLiked = !s.1.isLiked) ∧
    (hasLike (toggleLikeOk a p owner s).2 a p = !s.1.isLiked) ∧
    ((toggleLikeOk a p owner s).1.likesCount =
      s.1.likesCount + (if s.1.isLiked then -1 else 1)) := by
  obtain ⟨c, db⟩ := s
  simp only at h
  cases hc : c.isLiked with
  | true =>
    have hdb : hasLike db a p = true := by rw [← h, hc]
    unfold toggleLikeOk
    rw [show ((c, db) : CardState × DB).1 = c from rfl,
      show ((c, db) : CardState × DB).2 = db from rfl,
      handleLike_ok_liked a p owner c db hc]
    refine ⟨by simp [hc], ?_, by simp [hc]; omega⟩
    simp [hasLike]
    intro x _ hor ha
    rcases hor with h1 | h1
    · exact absurd ha h1
    · exact h1
  | false =>
    have hdb : hasLike db a p = false := by rw [← h, hc]
    unfold toggleLikeOk
    rw [show ((c, db) : CardState × DB).1 = c from rfl,
      show ((c, db) : CardState × DB).2 = db from rfl,
      handleLike_ok_unliked a p owner c db hc hdb]
    by_cases how : owner = a
    · refine ⟨by simp [hc], ?_, by simp [hc]⟩
      have hdb2 : db.likes.any
          (fun l => l.user_id == a && l.post_id == p) = false := hdb
      simp [how, hasLike, List.any_append, hdb2]
    · refine ⟨by simp [hc], ?_, by simp [hc]⟩
      have hdb2 : db.likes.any
          (fun l => l.user_id == a && l.post_id == p) = false := hdb
      simp [how, hasLike, List.any_append, hdb2]

/-- Full characterisation of `n` successful toggles from a consistent
state: flag and stored row follow the parity of `n`, and the count moves by
the net of the alternation. -/
lemma toggleLikeOk_iterate (a p owner : String) (n : Nat) (c : CardState)
    (db : DB) (h : c.isLiked = hasLike db a p) :
    (((toggleLikeOk a p owner)^[n] (c, db)).1.isLiked
        = (if n % 2 = 0 then c.isLiked else !c.isLiked)) ∧
    (hasLike (((toggleLikeOk a p owner)^[n]) (c, db)).2 a p
        = (if n % 2 = 0 then c.isLiked else !c.isLiked)) ∧
    (((toggleLikeOk a p owner)^[n] (c, db)).1.likesCount
        = c.likesCount +
          (if n % 2 = 0 then 0 else if c.isLiked then -1 else 1)) := by
  induction n with
  | zero =>
    refine ⟨by simp, by simp [h.symm], by simp⟩
  | succ n ih =>
    obtain ⟨ih1, ih2, ih3⟩ := ih
    have hcons : (((toggleLikeOk a p owner)^[n]) (c, db)).1.isLiked
        = hasLike (((toggleLikeOk a p owner)^[n]) (c, db)).2 a p := by
      rw [ih1, ih2]
    obtain ⟨e1, e2, e3⟩ :=
      toggleLikeOk_step a p owner ((toggleLikeOk a p owner)^[n] (c, db)) hcons
    rcases Nat.mod_two_eq_zero_or_one n with h2 | h2
    · have h3 : (n + 1) % 2 = 1 := by omega
      refine ⟨?_, ?_, ?_⟩
      · rw [Function.iterate_succ_apply', e1, ih1]
        simp [h2, h3]
      · rw [Function.iterate_succ_apply', e2, ih1]
        simp [h2, h3]
      · rw [Function.iterate_succ_apply', e3, ih3, ih1]
        simp [h2, h3]
    · have h3 : (n + 1) % 2 = 0 := by omega
      refine ⟨?_, ?_, ?_⟩
      · rw [Function.iterate_succ_apply', e1, ih1]
        simp [h2, h3]
      · rw [Function.iterate_succ_apply', e2, ih1]
        simp [h2, h3]
      · rw [Function.iterate_succ_apply', e3, ih3, ih1]
        simp [h2, h3]
        cases c.isLiked
        · simp
        · simp

/-- C1: starting from any consistent like state, an even number of
successful `handleLike` toggles restores the component flag, the displayed
count and the stored per-pair like row; an odd number flips flag and stored
row and moves the count by exactly one. -/
theorem like_toggle_parity (a p owner : String) (n : Nat) (c : CardState)
    (db : DB) (h : c.isLiked = hasLike db a p) :
    (Even n →
      ((toggleLikeOk a p owner)^[n] (c, db)).1.isLiked = c.isLiked ∧
      ((toggleLikeOk a p owner)^[n] (c, db)).1.likesCount = c.likesCount ∧
      hasLike (((toggleLikeOk a p owner)^[n]) (c, db)).2 a p
        = hasLike db a p) ∧
    (Odd n →
      ((toggleLikeOk a p owner)^[n] (c, db)).1.isLiked = !c.isLiked ∧
      (((toggleLikeOk a p owner)^[n] (c, db)).1.likesCount
          = c.likesCount + 1 ∨
       ((toggleLikeOk a p owner)^[n] (c, db)).1.likesCount
          = c.likesCount - 1) ∧
      hasLike (((toggleLikeOk a p owner)^[n]) (c, db)).2 a p
        = !hasLike db a p) := by
  obtain ⟨e1, e2, e3⟩ := toggleLikeOk_iterate a p owner n c db h
  constructor
  · intro hev
    have h2 : n % 2 = 0 := Nat.even_iff.mp hev
    exact ⟨by rw [e1]; simp [h2], by rw [e3]; simp [h2],
      by rw [e2]; simp [h2, h]⟩
  · intro hod
    have h2 : n % 2 = 1 := Nat.odd_iff.mp hod
    refine ⟨by rw [e1]; simp [h2], ?_, by rw [e2]; simp [h2, h]⟩
    rw [e3]
    simp only [h2]
    cases c.isLiked
    · left; simp
    · right
      simp
      omega

/-- Witness for C1: two successful toggles from the unliked state over an
empty store restore flag and count. -/
theorem like_toggle_parity_witness :
    ((toggleLikeOk "ua" "pa" "ub")^[2] (⟨false, 0⟩, emptyDB)).1.isLiked
      = false ∧
    ((toggleLikeOk "ua" "pa" "ub")^[2] (⟨false, 0⟩, emptyDB)).1.likesCount
      = 0 := by
  have hw := (like_toggle_parity "ua" "pa" "ub" 2 ⟨false, 0⟩ emptyDB
    (by decide)).1 ⟨1, by omega⟩
  exact ⟨hw.1, hw.2.1⟩

end ReelNija
